import Mathlib

/-!
Verification of the password-reset workflow in `src/controllers/user.ts`
(handlers `getReset`, `postReset`, `forgot`).

The handlers are shallowly embedded as pure functions over a directory of
user records.  Request-boundary facts computed by external collaborators
(express-validator's `isEmail`, `req.isAuthenticated()`, success of
`user.save`, `req.logIn` and `transporter.sendMail`, availability of
`crypto.randomBytes`) enter as boolean/optional parameters.  `Date.now()`
enters as a natural number of milliseconds.  Storage-read (`findOne`)
errors are not modelled; `findOne` itself is `List.find?` over the
directory, `save` is an update keyed by the record's email.

JavaScript's `<` between the stored token string and `Date.now()` (the
comparison actually written in `getReset` and `postReset`) coerces the
string to a number; tokens are hex strings from `buf.toString("hex")`, so
the coercion is a decimal literal with an optional `e` exponent, or NaN,
and `NaN < n` is `false`.  `jsStringToNum` implements exactly that
fragment.
-/

/-- A stored user record.  `passwordResetToken` / `passwordResetExpires`
mirror the fields set by `forgot` and cleared by `postReset`. -/
structure UserRecord where
  email : String
  password : String
  passwordResetToken : Option String
  passwordResetExpires : Option Nat
  deriving Repr, DecidableEq

/-- The user store: `User.findOne` scans it, `save` writes back by email. -/
abbrev Directory := List UserRecord

/-- Causes forwarded to the express error middleware via `next(err)` /
`done(err)`. -/
inductive ErrKind where
  | userNotFound
  | saveFail
  | loginFail
  | mailFail
  deriving Repr, DecidableEq

/-- The first response actually sent to the client by a handler. -/
inductive HttpResult where
  /-- Status 400 with the express-validator error list. -/
  | invalidInput
  /-- Status 401 "You are already logged in." -/
  | alreadyLoggedIn
  /-- Status 403 "Password reset token is invalid or has expired." -/
  | tokenInvalid
  /-- Status 200 "Password reset token is valid." -/
  | tokenValid
  /-- Status 200 "Success! Your password has been changed." -/
  | successReset
  /-- Status 200 "An e-mail has been sent to `email` with further instructions." -/
  | ack (email : String)
  /-- response produced by the error middleware after `next(err)`. -/
  | serverError (e : ErrKind)
  /-- an exception was thrown before any response was sent. -/
  | crashed
  deriving Repr, DecidableEq

/-- Holds `true` iff the result is a `next(err)`-mediated server error. -/
def HttpResult.isServerError : HttpResult → Bool
  | .serverError _ => true
  | _ => false

/-- Decimal digits to a number; `none` when the digit list is empty or has
a non-digit (JS `NaN`). -/
def parseDec (cs : List Char) : Option Nat :=
  if cs ≠ [] ∧ cs.all Char.isDigit then
    some (cs.foldl (fun n c => n * 10 + (c.toNat - 48)) 0)
  else none

/-- JS `Number(s)` on strings drawn from hex-digit characters: a plain
decimal literal, or mantissa`e`exponent; anything else is NaN (`none`). -/
def jsStringToNum (s : String) : Option Nat :=
  match s.toList.splitOn 'e' with
  | [m] => parseDec m
  | [m, ex] => do
    let mv ← parseDec m
    let ev ← parseDec ex
    pure (mv * 10 ^ ev)
  | _ => none

/-- JS `s < n` for a string `s` and number `n`: NaN compares false. -/
def jsLtNum (s : String) (n : Nat) : Bool :=
  match jsStringToNum s with
  | none => false
  | some m => decide (m < n)

/-- JS `o < n` where `o` is the optional stored token field: `undefined`
coerces to NaN, so it compares false. -/
def jsLtOpt (o : Option String) (n : Nat) : Bool :=
  match o with
  | none => false
  | some s => jsLtNum s n

/-- Model of `User.findOne` keyed by email: first record with that email (a first-match
scan, `List.find?`). -/
def findByEmail : Directory → String → Option UserRecord
  | [], _ => none
  | u :: rest, email =>
    if u.email == email then some u else findByEmail rest email

/-- Model of `User.findOne` keyed by reset token: first record holding the
token (a first-match scan, `List.find?`). -/
def findByToken : Directory → String → Option UserRecord
  | [], _ => none
  | u :: rest, token =>
    if u.passwordResetToken == some token then some u else findByToken rest token

/-- Model of `user.save`: write the mutated record back, keyed by email. -/
def save (dir : Directory) (u : UserRecord) : Directory :=
  dir.map (fun v => if v.email == u.email then u else v)

/-- Lower-case hex digit of a value below 16, as in Node's
`buf.toString("hex")`. -/
def hexDigit (n : Nat) : Char :=
  if n < 10 then Char.ofNat (48 + n) else Char.ofNat (87 + n)

/-- The character list of `buf.toString("hex")`: two hex digits per byte. -/
def toHexList (bytes : List Nat) : List Char :=
  match bytes with
  | [] => []
  | b :: rest => hexDigit (b / 16) :: hexDigit (b % 16) :: toHexList rest

/-- Hex rendering `buf.toString("hex")` of the 16 random bytes. -/
def toHex (bytes : List Nat) : String :=
  String.mk (toHexList bytes)

/-- GET /reset/:token (`getReset`).  Rejects authenticated callers, looks
the token up, and then — as the source is written — compares the stored
`passwordResetToken` itself (not `passwordResetExpires`) against
`Date.now()`.  Read-only: the directory is not modified. -/
def getReset (dir : Directory) (isAuth : Bool) (token : String) (now : Nat) :
    HttpResult :=
  if isAuth then .alreadyLoggedIn
  else
    match findByToken dir token with
    | none => .tokenInvalid
    | some u => if jsLtOpt u.passwordResetToken now then .tokenInvalid else .tokenValid

/-- Observable outcome of `postReset`: first response sent, resulting
directory, number of storage calls (`findOne` + `save`), number of
`sendMail` invocations, and whether a mail error was forwarded to the
error middleware after the response. -/
structure RedeemOutcome where
  response : HttpResult
  dir : Directory
  storeCalls : Nat
  mailAttempts : Nat
  mailErrForwarded : Bool
  deriving Repr, DecidableEq

/-- Observable outcome of `forgot`, same fields as `RedeemOutcome`. -/
structure ForgotOutcome where
  response : HttpResult
  dir : Directory
  storeCalls : Nat
  mailAttempts : Nat
  mailErrForwarded : Bool
  deriving Repr, DecidableEq

/-- The continuation of `postReset`'s `resetPassword` step after the
`findOne` read returned `found`, plus the `sendResetPasswordEmail` step and
the waterfall's final callback.  Split out from `postReset` because the
read (`findOne`) and the write (`save`) are separate asynchronous storage
calls in the source: another request can run between them against the same
directory.

Branches, as written in the source:
* `found = none`: `done(new Error("User not found"))` reaches the final
  callback, which calls `next(err)`; the missing `return` then makes
  `user.password = ...` throw on `undefined`, so the store is untouched.
* token "expired" per the `user.passwordResetToken < Date.now()`
  comparison: `done(new Error(...))` fires (error response), but the
  missing `return` lets the handler still overwrite the password, clear
  both reset fields and save.
* otherwise: set the password from the request, clear both reset fields,
  save, `req.logIn`, then `sendMail`, whose callback sends the 200 success
  response before passing the mail error (if any) to `done`. -/
def redeemRest (dir : Directory) (found : Option UserRecord) (pw : String)
    (now : Nat) (saveOk loginOk mailOk : Bool) : RedeemOutcome :=
  match found with
  | none => ⟨.serverError .userNotFound, dir, 1, 0, false⟩
  | some u =>
    let u2 : UserRecord :=
      { u with password := pw, passwordResetToken := none, passwordResetExpires := none }
    if jsLtOpt u.passwordResetToken now then
      ⟨.serverError .userNotFound, if saveOk then save dir u2 else dir, 2, 0, false⟩
    else if ¬ saveOk then ⟨.serverError .saveFail, dir, 2, 0, false⟩
    else if ¬ loginOk then ⟨.serverError .loginFail, save dir u2, 2, 0, false⟩
    else ⟨.successReset, save dir u2, 2, 1, !mailOk⟩

/-- POST /reset/:token (`postReset`).  Validates the new password (length
at least 4, confirmation equal) before any collaborator call, then runs
the waterfall.  `isAuth` mirrors `req.isAuthenticated()`; the source never
consults it on this path. -/
def postReset (dir : Directory) (isAuth : Bool) (token pw confirmPw : String)
    (now : Nat) (saveOk loginOk mailOk : Bool) : RedeemOutcome :=
  if pw.length < 4 ∨ confirmPw ≠ pw then ⟨.invalidInput, dir, 0, 0, false⟩
  else redeemRest dir (findByToken dir token) pw now saveOk loginOk mailOk

/-- POST /forgot (`forgot`).  `emailValid` is express-validator's
`isEmail` verdict on the (sanitized) address; `entropy` is the byte buffer
from `crypto.randomBytes(16)`, `none` when the entropy source errored.

Branches, as written in the source:
* validation failure: 400 before any collaborator call.
* `entropy = none`: the callback runs `buf.toString("hex")` on an
  `undefined` buffer and throws before `done` is ever called — no
  response, no state change.
* user not found: `done(new Error("User not found"))`; the final callback
  matches that message and sends the same 200 acknowledgment, built from
  `req.body.email`; the missing `return` then throws on `undefined`
  without touching the store.
* user found: set `passwordResetToken` to the hex token and
  `passwordResetExpires` to `Date.now() + 3600000`, save, then `sendMail`,
  whose callback sends the 200 acknowledgment (built from `user.email`)
  before passing the mail error (if any) to `done`. -/
def forgot (dir : Directory) (email : String) (emailValid : Bool)
    (entropy : Option (List Nat)) (now : Nat) (saveOk mailOk : Bool) :
    ForgotOutcome :=
  if ¬ emailValid then ⟨.invalidInput, dir, 0, 0, false⟩
  else
    match entropy with
    | none => ⟨.crashed, dir, 0, 0, false⟩
    | some bytes =>
      let token := toHex bytes
      match findByEmail dir email with
      | none => ⟨.ack email, dir, 1, 0, false⟩
      | some u =>
        let u2 : UserRecord :=
          { u with passwordResetToken := some token,
                   passwordResetExpires := some (now + 3600000) }
        if ¬ saveOk then ⟨.serverError .saveFail, dir, 2, 0, false⟩
        else ⟨.ack u.email, save dir u2, 2, 1, !mailOk⟩

/-- The both-set-or-both-absent invariant on the reset fields. -/
abbrev resetFieldsAligned (dir : Directory) : Prop :=
  ∀ u ∈ dir, u.passwordResetToken.isSome = u.passwordResetExpires.isSome

/-- A 32-hex-character token whose JS numeric coercion is NaN (it contains
non-exponent letters), as `crypto.randomBytes(16).toString("hex")`
overwhelmingly produces. -/
def demoTok : String := "abcdef0123456789abcdef0123456789"

/-- A record holding `demoTok`, issued at `T = 1000000` ms with expiry
`T + 3600000` ms. -/
def demoUser : UserRecord :=
  ⟨"real@example.com", "oldpw", some demoTok, some 4600000⟩

/-- A one-record directory with a pending reset for `demoUser`. -/
def demoDir : Directory := [demoUser]

/-- A record found by email carries that email. -/
theorem email_of_findByEmail {dir : Directory} {e : String} {u : UserRecord}
    (h : findByEmail dir e = some u) : u.email = e := by
  induction dir with
  | nil => simp [findByEmail] at h
  | cons v t ih =>
    simp only [findByEmail] at h
    split at h
    case isTrue hv =>
      cases h
      exact eq_of_beq hv
    case isFalse hv =>
      exact ih h

/-- A record found by token carries that token. -/
theorem token_of_findByToken {dir : Directory} {tok : String} {u : UserRecord}
    (h : findByToken dir tok = some u) : u.passwordResetToken = some tok := by
  induction dir with
  | nil => simp [findByToken] at h
  | cons v t ih =>
    simp only [findByToken] at h
    split at h
    case isTrue hv =>
      cases h
      exact eq_of_beq hv
    case isFalse hv =>
      exact ih h

/-- A record found by token is a member of the directory. -/
theorem mem_of_findByToken {dir : Directory} {tok : String} {u : UserRecord}
    (h : findByToken dir tok = some u) : u ∈ dir := by
  induction dir with
  | nil => simp [findByToken] at h
  | cons v t ih =>
    simp only [findByToken] at h
    split at h
    case isTrue hv =>
      cases h
      exact List.mem_cons_self u t
    case isFalse hv =>
      exact List.mem_cons_of_mem v (ih h)

/-- Saving a record that keeps the found record's email makes it the record
found by that email afterwards. -/
theorem findByEmail_save {dir : Directory} {e : String} {u u2 : UserRecord}
    (h : findByEmail dir e = some u) (he : u2.email = u.email) :
    findByEmail (save dir u2) e = some u2 := by
  induction dir with
  | nil => simp [findByEmail] at h
  | cons v t ih =>
    simp only [findByEmail] at h
    simp only [save, List.map_cons]
    split at h
    case isTrue hv =>
      cases h
      have h1 : (u.email == u2.email) = true := beq_iff_eq.mpr he.symm
      rw [if_pos h1]
      simp only [findByEmail]
      rw [if_pos (beq_iff_eq.mpr (he.trans (eq_of_beq hv)))]
    case isFalse hv =>
      have hu : u.email = e := email_of_findByEmail h
      have h1 : ¬ ((v.email == u2.email) = true) := by
        rw [he, hu]
        simpa using hv
      rw [if_neg h1]
      simp only [findByEmail]
      rw [if_neg hv]
      exact ih h

/-- After saving a record with a cleared token over the unique holder of
`tok`, no record is found by `tok` any more. -/
theorem findByToken_save_none {dir : Directory} {tok : String} {u u2 : UserRecord}
    (huniq : ∀ v ∈ dir, v.passwordResetToken = some tok → v = u)
    (he : u2.email = u.email) (ht : u2.passwordResetToken = none) :
    findByToken (save dir u2) tok = none := by
  induction dir with
  | nil => rfl
  | cons v t ih =>
    have ih2 := ih (fun w hw hwt => huniq w (List.mem_cons_of_mem v hw) hwt)
    simp only [save, List.map_cons]
    by_cases hv : (v.email == u2.email) = true
    · rw [if_pos hv]
      simp only [findByToken]
      rw [if_neg (by simp [ht])]
      exact ih2
    · rw [if_neg hv]
      simp only [findByToken]
      have hvt : ¬ ((v.passwordResetToken == some tok) = true) := by
        simp only [beq_iff_eq]
        intro hc
        have hvu : v = u := huniq v (List.mem_cons_self v t) hc
        subst hvu
        exact hv (beq_iff_eq.mpr he.symm)
      rw [if_neg hvt]
      exact ih2

/-- Saving keeps the invariant when the written record itself satisfies it. -/
theorem aligned_save {dir : Directory} {u2 : UserRecord}
    (h : resetFieldsAligned dir)
    (h2 : u2.passwordResetToken.isSome = u2.passwordResetExpires.isSome) :
    resetFieldsAligned (save dir u2) := by
  intro x hx
  simp only [save, List.mem_map] at hx
  obtain ⟨v, hv, rfl⟩ := hx
  by_cases hve : (v.email == u2.email) = true
  · simpa [hve] using h2
  · simpa [hve] using h v hv

/-- Every record of `save dir u2` sharing `u2`'s email is `u2` itself. -/
theorem save_email_eq {dir : Directory} {u2 x : UserRecord}
    (hx : x ∈ save dir u2) (hex : x.email = u2.email) : x = u2 := by
  simp only [save, List.mem_map] at hx
  obtain ⟨v, hv, rfl⟩ := hx
  by_cases hve : (v.email == u2.email) = true
  · simp [hve]
  · rw [if_neg hve] at hex ⊢
    exact absurd (beq_iff_eq.mpr hex) hve

/-- Rendering `toHexList` yields two characters per byte. -/
theorem toHexList_length (bs : List Nat) :
    (toHexList bs).length = 2 * bs.length := by
  induction bs with
  | nil => rfl
  | cons b t ih =>
    simp only [toHexList, List.length_cons, ih]
    omega

/-- Every hex digit of a value below sixteen is a decimal digit or one of
the letters a-f. -/
theorem hexDigit_isHex {n : Nat} (h : n < 16) :
    (hexDigit n).isDigit ∨ ('a' ≤ hexDigit n ∧ hexDigit n ≤ 'f') := by
  have hall : ∀ m, m < 16 →
      ((hexDigit m).isDigit ∨ ('a' ≤ hexDigit m ∧ hexDigit m ≤ 'f')) := by decide
  exact hall n h

/-- Characters of the hex rendering of a byte list are hex characters. -/
theorem toHexList_chars {bs : List Nat} (hb : ∀ b ∈ bs, b < 256) :
    ∀ c ∈ toHexList bs, c.isDigit ∨ ('a' ≤ c ∧ c ≤ 'f') := by
  induction bs with
  | nil =>
    intro c hc
    simp [toHexList] at hc
  | cons b t ih =>
    intro c hc
    simp only [toHexList, List.mem_cons] at hc
    rcases hc with rfl | rfl | hc
    · exact hexDigit_isHex (Nat.div_lt_of_lt_mul (hb b (List.mem_cons_self b t)))
    · exact hexDigit_isHex (Nat.mod_lt _ (by norm_num))
    · exact ih (fun x hx => hb x (List.mem_cons_of_mem b hx)) c hc

/-- Behaviour of `postReset` when validation passes but no record holds the token:
the generic server error, directory unchanged. -/
theorem postReset_not_found {d : Directory} {tok pw confirmPw : String} {now : Nat}
    {isAuth saveOk loginOk mailOk : Bool}
    (hval : ¬ (pw.length < 4 ∨ confirmPw ≠ pw))
    (hfind : findByToken d tok = none) :
    postReset d isAuth tok pw confirmPw now saveOk loginOk mailOk =
      ⟨.serverError .userNotFound, d, 1, 0, false⟩ := by
  unfold postReset
  rw [if_neg hval, hfind]
  rfl

/-- Claim C1 (code bug): `getReset` never consults `passwordResetExpires`;
it compares the stored token string with `Date.now()`, which is NaN for an
ordinary hex token, so a token issued at `T = 1000000` ms with stored
expiry `T + 3600000` still verifies as valid at `T + 3601000` ms, where the
claim requires `TokenInvalidOrExpired`. -/
theorem c1_getReset_ignores_expiry :
    getReset demoDir false demoTok 4601000 = .tokenValid ∧
    getReset demoDir false demoTok 4599000 = .tokenValid ∧
    getReset demoDir false "ffffffffffffffffffffffffffffffff" 4599000 = .tokenInvalid := by
  decide

/-- Claim C3 (code bug): the match check and the clearing of the token are
a separate `findOne` read and `save` write, not an atomic read-modify-write;
in the interleaving where both `postReset` calls perform their `findOne`
read against the initial directory before either `save` runs, both
redemptions of the same valid token succeed, where the claim requires
exactly one success. -/
theorem c3_race_both_redeems_succeed :
    (redeemRest demoDir (findByToken demoDir demoTok) "newpw1" 1000 true true true).response
      = .successReset ∧
    (redeemRest
        (redeemRest demoDir (findByToken demoDir demoTok) "newpw1" 1000 true true true).dir
        (findByToken demoDir demoTok) "newpw2" 1000 true true true).response
      = .successReset := by
  decide

/-- Claim C6: a `postReset` whose new password is shorter than 4 characters
or whose confirmation differs fails with `InvalidInput` with zero storage
calls and zero mail attempts, and the directory — any pending token
included — is returned unchanged. -/
theorem c6_invalid_input_fail_fast (dir : Directory) (isAuth : Bool)
    (tok pw confirmPw : String) (now : Nat) (saveOk loginOk mailOk : Bool)
    (h : pw.length < 4 ∨ confirmPw ≠ pw) :
    postReset dir isAuth tok pw confirmPw now saveOk loginOk mailOk =
      ⟨.invalidInput, dir, 0, 0, false⟩ := by
  unfold postReset
  rw [if_pos h]

/-- Witness for C6 at a concrete short password. -/
theorem c6_invalid_input_fail_fast_witness :
    postReset demoDir false demoTok "abc" "abc" 1000 true true true =
      ⟨.invalidInput, demoDir, 0, 0, false⟩ :=
  c6_invalid_input_fail_fast demoDir false demoTok "abc" "abc" 1000 true true true
    (Or.inl (by decide))

/-- Claim C10: `postReset` never consults the session (its result is
independent of the `isAuthenticated` flag), and an authenticated caller
with a matching, non-"expired" token gets the password changed, while
`getReset` rejects that same authenticated caller with 401. -/
theorem c10_redeem_ignores_session (dir : Directory) (a b : Bool)
    (tok pw confirmPw : String) (now : Nat) (saveOk loginOk mailOk : Bool)
    (u : UserRecord) (hfind : findByToken dir tok = some u)
    (hexp : jsLtOpt u.passwordResetToken now = false) (hlen : 4 ≤ pw.length) :
    postReset dir a tok pw confirmPw now saveOk loginOk mailOk
      = postReset dir b tok pw confirmPw now saveOk loginOk mailOk ∧
    getReset dir true tok now = .alreadyLoggedIn ∧
    (postReset dir true tok pw pw now true true mailOk).response = .successReset := by
  refine ⟨rfl, rfl, ?_⟩
  have hval : ¬ (pw.length < 4 ∨ pw ≠ pw) := by
    push_neg
    exact ⟨by omega, rfl⟩
  unfold postReset
  rw [if_neg hval, hfind]
  simp [redeemRest, hexp]

/-- Witness for C10: an already-authenticated caller redeems `demoTok`. -/
theorem c10_redeem_ignores_session_witness :
    (postReset demoDir true demoTok "newpass" "newpass" 1000 true true true).response
      = .successReset :=
  (c10_redeem_ignores_session demoDir true false demoTok "newpass" "newpass" 1000
    true true true demoUser (by decide) (by decide) (by decide)).2.2

/-- Claim C5: for a present email, a successful `forgot` stores both the
reset token and the expiry, the expiry being the issuance time plus exactly
one hour (3600000 ms). -/
theorem c5_issuance_sets_token_and_expiry (dir : Directory) (e : String)
    (bytes : List Nat) (now : Nat) (mailOk : Bool) (u : UserRecord)
    (hfind : findByEmail dir e = some u) :
    (forgot dir e true (some bytes) now true mailOk).response = .ack u.email ∧
    findByEmail (forgot dir e true (some bytes) now true mailOk).dir e =
      some { u with passwordResetToken := some (toHex bytes),
                    passwordResetExpires := some (now + 3600000) } := by
  have ho : forgot dir e true (some bytes) now true mailOk =
      ⟨.ack u.email,
       save dir { u with passwordResetToken := some (toHex bytes),
                         passwordResetExpires := some (now + 3600000) },
       2, 1, !mailOk⟩ := by
    simp [forgot, hfind]
  rw [ho]
  exact ⟨rfl, findByEmail_save hfind rfl⟩

/-- Witness for C5 on the one-record demo directory. -/
theorem c5_issuance_sets_token_and_expiry_witness :
    findByEmail
        (forgot demoDir "real@example.com" true (some (List.replicate 16 0)) 5 true true).dir
        "real@example.com" =
      some { demoUser with passwordResetToken := some (toHex (List.replicate 16 0)),
                           passwordResetExpires := some (5 + 3600000) } :=
  (c5_issuance_sets_token_and_expiry demoDir "real@example.com" (List.replicate 16 0)
    5 true demoUser (by decide)).2

/-- Claim C2: for a valid email absent from the directory, `forgot` answers
with the same acknowledgment content (`An e-mail has been sent to ...`) as
a successful run for a present email, leaves the directory unchanged (no
token stored for any record) and dispatches no mail. -/
theorem c2_uniform_ack (dir dir2 : Directory) (e : String)
    (bytes bytes2 : List Nat) (now now2 : Nat) (saveOk mailOk mailOk2 : Bool)
    (u : UserRecord)
    (habs : findByEmail dir e = none) (hpres : findByEmail dir2 e = some u) :
    (forgot dir e true (some bytes) now saveOk mailOk).response = .ack e ∧
    (forgot dir e true (some bytes) now saveOk mailOk).dir = dir ∧
    (forgot dir e true (some bytes) now saveOk mailOk).mailAttempts = 0 ∧
    (forgot dir2 e true (some bytes2) now2 true mailOk2).response = .ack e := by
  have hu : u.email = e := email_of_findByEmail hpres
  refine ⟨?_, ?_, ?_, ?_⟩
  · simp [forgot, habs]
  · simp [forgot, habs]
  · simp [forgot, habs]
  · simp [forgot, hpres, hu]

/-- Witness for C2: `real@example.com` is absent from the empty directory
and present in `demoDir`; both runs acknowledge with the same content. -/
theorem c2_uniform_ack_witness :
    (forgot [] "real@example.com" true (some (List.replicate 16 1)) 5 true true).response
      = .ack "real@example.com" ∧
    (forgot [] "real@example.com" true (some (List.replicate 16 1)) 5 true true).dir = [] ∧
    (forgot [] "real@example.com" true (some (List.replicate 16 1)) 5 true true).mailAttempts = 0 ∧
    (forgot demoDir "real@example.com" true (some (List.replicate 16 2)) 6 true true).response
      = .ack "real@example.com" :=
  c2_uniform_ack [] demoDir "real@example.com" (List.replicate 16 1) (List.replicate 16 2)
    5 6 true true true demoUser (by decide) (by decide)

/-- Counterexample to claim C4 as stated: after a successful redemption of
`demoTok`, a second `postReset` with the same token does fail, but its
response is the generic server error from `next(new Error("User not
found"))`, not the 403 `TokenInvalidOrExpired` response the claim names. -/
theorem c4_counterexample :
    (postReset demoDir false demoTok "newpass" "newpass" 1000 true true true).response
      = .successReset ∧
    (postReset (postReset demoDir false demoTok "newpass" "newpass" 1000 true true true).dir
        false demoTok "newpass" "newpass" 1000 true true true).response
      = .serverError .userNotFound ∧
    (postReset (postReset demoDir false demoTok "newpass" "newpass" 1000 true true true).dir
        false demoTok "newpass" "newpass" 1000 true true true).response
      ≠ .tokenInvalid := by
  decide

/-- Claim C4 as amended: after a successful `postReset`, the redeemed
record's `passwordResetToken` and `passwordResetExpires` are both absent
and no record matches the token any more; a second `postReset` with the
same token does not succeed again — it fails, with the generic server
error rather than the 403 token response — and leaves the directory
unchanged. -/
theorem c4_redeem_clears_then_second_fails (dir : Directory) (tok pw : String)
    (now : Nat) (mailOk : Bool) (u : UserRecord)
    (hfind : findByToken dir tok = some u)
    (huniq : ∀ v ∈ dir, v.passwordResetToken = some tok → v = u)
    (hlen : 4 ≤ pw.length)
    (hexp : jsLtOpt u.passwordResetToken now = false) :
    (postReset dir false tok pw pw now true true mailOk).response = .successReset ∧
    findByToken (postReset dir false tok pw pw now true true mailOk).dir tok = none ∧
    (∀ v ∈ (postReset dir false tok pw pw now true true mailOk).dir,
        v.email = u.email → v.passwordResetToken = none ∧ v.passwordResetExpires = none) ∧
    (postReset (postReset dir false tok pw pw now true true mailOk).dir
        false tok pw pw now true true mailOk).response = .serverError .userNotFound ∧
    (postReset (postReset dir false tok pw pw now true true mailOk).dir
        false tok pw pw now true true mailOk).dir
      = (postReset dir false tok pw pw now true true mailOk).dir := by
  have hval : ¬ (pw.length < 4 ∨ pw ≠ pw) := by
    push_neg
    exact ⟨by omega, rfl⟩
  have ho : postReset dir false tok pw pw now true true mailOk =
      ⟨.successReset,
       save dir { u with password := pw, passwordResetToken := none,
                         passwordResetExpires := none },
       2, 1, !mailOk⟩ := by
    unfold postReset
    rw [if_neg hval, hfind]
    simp [redeemRest, hexp]
  have hclear : findByToken (postReset dir false tok pw pw now true true mailOk).dir tok
      = none := by
    rw [ho]
    exact findByToken_save_none huniq rfl rfl
  refine ⟨by rw [ho], hclear, ?_, ?_, ?_⟩
  · intro v hv hve
    rw [ho] at hv
    have : v = { u with password := pw, passwordResetToken := none,
                        passwordResetExpires := none } :=
      save_email_eq hv hve
    rw [this]
    exact ⟨rfl, rfl⟩
  · rw [postReset_not_found hval hclear]
  · rw [postReset_not_found hval hclear]

/-- Witness for C4 on the demo directory. -/
theorem c4_redeem_clears_then_second_fails_witness :
    (postReset demoDir false demoTok "newpass2" "newpass2" 1000 true true true).response
      = .successReset ∧
    findByToken (postReset demoDir false demoTok "newpass2" "newpass2" 1000 true true true).dir
        demoTok = none ∧
    (postReset (postReset demoDir false demoTok "newpass2" "newpass2" 1000 true true true).dir
        false demoTok "newpass2" "newpass2" 1000 true true true).response
      = .serverError .userNotFound := by
  have h := c4_redeem_clears_then_second_fails demoDir demoTok "newpass2" 1000 true demoUser
    (by decide) (by decide) (by decide) (by decide)
  exact ⟨h.1, h.2.1, h.2.2.2.1⟩

/-- Claim C7: both handlers that write to the store keep the invariant
that `passwordResetToken` and `passwordResetExpires` are both set or both
absent (`getReset` returns a response only and cannot break it). -/
theorem c7_reset_fields_aligned_preserved (dir : Directory)
    (e tok pw confirmPw : String) (emailValid : Bool)
    (entropy : Option (List Nat)) (now now2 : Nat)
    (saveOk mailOk isAuth saveOk2 loginOk mailOk2 : Bool)
    (h : resetFieldsAligned dir) :
    resetFieldsAligned (forgot dir e emailValid entropy now saveOk mailOk).dir ∧
    resetFieldsAligned
      (postReset dir isAuth tok pw confirmPw now2 saveOk2 loginOk mailOk2).dir := by
  constructor
  · by_cases hv : emailValid
    · cases entropy with
      | none => simpa [forgot, hv] using h
      | some bytes =>
        cases hf : findByEmail dir e with
        | none => simpa [forgot, hv, hf] using h
        | some u =>
          by_cases hs : saveOk
          · have : (forgot dir e emailValid (some bytes) now saveOk mailOk).dir =
                save dir { u with passwordResetToken := some (toHex bytes),
                                  passwordResetExpires := some (now + 3600000) } := by
              simp [forgot, hv, hf, hs]
            rw [this]
            exact aligned_save h rfl
          · simpa [forgot, hv, hf, hs] using h
    · simpa [forgot, hv] using h
  · by_cases hval : pw.length < 4 ∨ confirmPw ≠ pw
    · simpa [postReset, hval] using h
    · cases hf : findByToken dir tok with
      | none => simpa [postReset, hval, redeemRest, hf] using h
      | some u =>
        by_cases hexp : jsLtOpt u.passwordResetToken now2 = true
        · by_cases hs : saveOk2
          · have : (postReset dir isAuth tok pw confirmPw now2 saveOk2 loginOk mailOk2).dir =
                save dir { u with password := pw, passwordResetToken := none,
                                  passwordResetExpires := none } := by
              simp [postReset, hval, redeemRest, hf, hexp, hs]
            rw [this]
            exact aligned_save h rfl
          · simpa [postReset, hval, redeemRest, hf, hexp, hs] using h
        · by_cases hs : saveOk2
          · by_cases hl : loginOk
            · have : (postReset dir isAuth tok pw confirmPw now2 saveOk2 loginOk mailOk2).dir =
                  save dir { u with password := pw, passwordResetToken := none,
                                    passwordResetExpires := none } := by
                simp [postReset, hval, redeemRest, hf, hexp, hs, hl]
              rw [this]
              exact aligned_save h rfl
            · have : (postReset dir isAuth tok pw confirmPw now2 saveOk2 loginOk mailOk2).dir =
                  save dir { u with password := pw, passwordResetToken := none,
                                    passwordResetExpires := none } := by
                simp [postReset, hval, redeemRest, hf, hexp, hs, hl]
              rw [this]
              exact aligned_save h rfl
          · simpa [postReset, hval, redeemRest, hf, hexp, hs] using h

/-- Witness for C7 on the demo directory, which satisfies the invariant. -/
theorem c7_reset_fields_aligned_preserved_witness :
    resetFieldsAligned
      (forgot demoDir "real@example.com" true (some (List.replicate 16 4)) 5 true true).dir ∧
    resetFieldsAligned
      (postReset demoDir false demoTok "newpass" "newpass" 1000 true true true).dir :=
  c7_reset_fields_aligned_preserved demoDir "real@example.com" demoTok "newpass" "newpass"
    true (some (List.replicate 16 4)) 5 1000 true true false true true true (by decide)

/-- Counterexample to claim C8 as stated: when `sendMail` fails, the
caller-visible response of both `forgot` and `postReset` is exactly the
success response of the mail-succeeding run — the 200 is sent inside the
`sendMail` callback before the error is handed to `done` — so the failure
is not reported to the caller. -/
theorem c8_counterexample :
    (forgot demoDir "real@example.com" true (some (List.replicate 16 3)) 7 true false).response
      = (forgot demoDir "real@example.com" true (some (List.replicate 16 3)) 7 true true).response ∧
    (forgot demoDir "real@example.com" true (some (List.replicate 16 3)) 7 true false).response
      = .ack "real@example.com" ∧
    (postReset demoDir false demoTok "newpass" "newpass" 1000 true true false).response
      = .successReset := by
  decide

/-- Claim C8 as amended: when `sendMail` fails after the state change was
persisted, the persisted change is intact (token stored by `forgot`,
token cleared by `postReset`), exactly one dispatch is attempted, and the
error is forwarded once to the error middleware — but the caller has
already received the success response, so the failure is not reported to
the caller. -/
theorem c8_mail_failure_after_commit (dir : Directory) (e tok pw : String)
    (bytes : List Nat) (now now2 : Nat) (u v : UserRecord)
    (hfe : findByEmail dir e = some u) (hft : findByToken dir tok = some v)
    (hexp : jsLtOpt v.passwordResetToken now2 = false) (hlen : 4 ≤ pw.length) :
    (forgot dir e true (some bytes) now true false).dir
      = save dir { u with passwordResetToken := some (toHex bytes),
                          passwordResetExpires := some (now + 3600000) } ∧
    (forgot dir e true (some bytes) now true false).mailAttempts = 1 ∧
    (forgot dir e true (some bytes) now true false).mailErrForwarded = true ∧
    (forgot dir e true (some bytes) now true false).response = .ack u.email ∧
    (postReset dir false tok pw pw now2 true true false).dir
      = save dir { v with password := pw, passwordResetToken := none,
                          passwordResetExpires := none } ∧
    (postReset dir false tok pw pw now2 true true false).mailAttempts = 1 ∧
    (postReset dir false tok pw pw now2 true true false).mailErrForwarded = true ∧
    (postReset dir false tok pw pw now2 true true false).response = .successReset := by
  have hval : ¬ (pw.length < 4 ∨ pw ≠ pw) := by
    push_neg
    exact ⟨by omega, rfl⟩
  have ho : postReset dir false tok pw pw now2 true true false =
      ⟨.successReset,
       save dir { v with password := pw, passwordResetToken := none,
                         passwordResetExpires := none },
       2, 1, true⟩ := by
    unfold postReset
    rw [if_neg hval, hft]
    simp [redeemRest, hexp]
  refine ⟨?_, ?_, ?_, ?_, ?_, ?_, ?_, ?_⟩ <;>
    first
      | simp [forgot, hfe]
      | rw [ho]

/-- Witness for C8 on the demo directory with a failing mail transport. -/
theorem c8_mail_failure_after_commit_witness :
    (forgot demoDir "real@example.com" true (some (List.replicate 16 5)) 7 true false).mailAttempts
      = 1 ∧
    (forgot demoDir "real@example.com" true (some (List.replicate 16 5)) 7 true false).mailErrForwarded
      = true ∧
    (postReset demoDir false demoTok "newpass" "newpass" 1000 true true false).response
      = .successReset := by
  have h := c8_mail_failure_after_commit demoDir "real@example.com" demoTok "newpass"
    (List.replicate 16 5) 7 1000 demoUser demoUser (by decide) (by decide) (by decide) (by decide)
  exact ⟨h.2.1, h.2.2.1, h.2.2.2.2.2.2.2⟩

/-- Counterexample to claim C9 as stated: when the entropy source errors,
`forgot` does not fail with a propagated entropy-unavailable error — the
callback dereferences the undefined buffer and throws before `done` is
called, so the request crashes with no response and no managed server
error. -/
theorem c9_counterexample :
    (forgot demoDir "real@example.com" true none 9 true true).response = .crashed ∧
    HttpResult.isServerError
      (forgot demoDir "real@example.com" true none 9 true true).response = false := by
  decide

/-- Claim C9 as amended: every token rendered from the 16 random bytes is a
32-character string of lower-case hex characters; when the random source
errors, no token is produced and the handler crashes (uncaught exception on
the undefined buffer) instead of failing with a propagated
entropy-unavailable error, leaving the directory untouched. -/
theorem c9_token_shape_and_entropy_crash (bytes : List Nat) (dir : Directory)
    (e : String) (now : Nat) (saveOk mailOk : Bool)
    (hlen : bytes.length = 16) (hb : ∀ b ∈ bytes, b < 256) :
    (toHex bytes).length = 32 ∧
    (∀ c ∈ (toHex bytes).toList, c.isDigit ∨ ('a' ≤ c ∧ c ≤ 'f')) ∧
    forgot dir e true none now saveOk mailOk = ⟨.crashed, dir, 0, 0, false⟩ := by
  refine ⟨?_, ?_, ?_⟩
  · show (toHexList bytes).length = 32
    rw [toHexList_length, hlen]
  · show ∀ c ∈ toHexList bytes, c.isDigit ∨ ('a' ≤ c ∧ c ≤ 'f')
    exact toHexList_chars hb
  · simp [forgot]

/-- Witness for C9 at a concrete byte buffer. -/
theorem c9_token_shape_and_entropy_crash_witness :
    (toHex (List.replicate 16 171)).length = 32 ∧
    forgot demoDir "real@example.com" true none 9 true true
      = ⟨.crashed, demoDir, 0, 0, false⟩ := by
  have h := c9_token_shape_and_entropy_crash (List.replicate 16 171) demoDir
    "real@example.com" 9 true true (by decide) (by decide)
  exact ⟨h.1, h.2.2⟩
